import Mathlib

/-!
Shallow embedding of the OpenGL context lifecycle subsystem of
`src/SFML/Window/GlContext.cpp` (VRSFML).

The embedding models the thread-local activation record (`CurrentContext`),
context identity issuance (the atomic counter inside `GlContext::Impl`),
the unshared-object registry, transient context acquisition/release,
`setActive`, `cleanupUnsharedResources`, `checkSettings` and the version
detection of `initialize`.

Platform calls (`makeCurrent`) are abstracted as a boolean oracle
`mc : Bool → Bool` giving the success of `makeCurrent(b)`.  Diagnostics
written to the `err()` stream are counted (a whole chained `err() << ...`
statement is one diagnostic line).  All state that is thread-local in the
source is passed explicitly; each `CurrentContext` value models one
thread's record.
-/

/-- `GlContextImpl::CurrentContext` (GlContext.cpp lines 174-190): the
per-thread record `{id, ptr, transientCount}`.  The `ptr` field, a raw
`GlContext*` in the source, is modelled as the identity of the context it
points to (`none` for `nullptr`); the source only ever stores `this`
together with `this->m_impl->id`, so a live pointer is determined by the
identity it accompanies. -/
structure CurrentContext where
  id : Nat
  ptr : Option Nat
  transientCount : Nat
deriving DecidableEq, Repr

/-- `GlContext::getActiveContextId` (lines 583-586): returns the calling
thread's `CurrentContext::get().id`. -/
def getActiveContextId (cc : CurrentContext) : Nat :=
  cc.id

/-- `GlContext::hasActiveContext` (lines 590-593). -/
def hasActiveContext (cc : CurrentContext) : Bool :=
  getActiveContextId cc != 0

/-- `GlContext::setActive` (lines 617-670) for a context whose
`m_impl->id` is `ctxId`, running on a thread whose record is `cc`.
`mc b` is the result of the virtual platform call `makeCurrent(b)`.
Returns the `bool` result and the updated thread record. -/
def setActive (mc : Bool → Bool) (ctxId : Nat) (active : Bool) (cc : CurrentContext) :
    Bool × CurrentContext :=
  -- if (active && m_impl->id == id) return true;
  if active ∧ ctxId = cc.id then (true, cc)
  -- if (!active && m_impl->id != id) return true;
  else if ¬active ∧ ctxId ≠ cc.id then (true, cc)
  else if active then
    -- activate: makeCurrent(true); on success id = m_impl->id, ptr = this
    if mc true then (true, { cc with id := ctxId, ptr := some ctxId })
    else (false, cc)
  else
    -- deactivate: makeCurrent(false); on success id = 0, ptr = nullptr
    if mc false then (true, { cc with id := 0, ptr := none })
    else (false, cc)

/-- `GlContext::~GlContext` (lines 597-606): clears the thread record when
the dying context is the thread's active one. -/
def glContextDestructor (ctxId : Nat) (cc : CurrentContext) : CurrentContext :=
  if ctxId = cc.id then { cc with id := 0, ptr := none } else cc

/-- `2^64`, the modulus of the `std::uint64_t` atomic identity counter in
`GlContext::Impl` (line 325). -/
def U64 : Nat := 18446744073709551616

/-- The identity counter after `k` constructions: `atomicId` is a
`std::atomic<std::uint64_t>` initialised to `1`; each construction performs
`fetch_add(1)`, so the stored value advances by one modulo `2^64`
(GlContext.cpp lines 322-327). -/
def counterAfter : Nat → Nat
  | 0 => 1
  | k + 1 => (counterAfter k + 1) % U64

/-- The identity issued to the `(k+1)`-th constructed context:
`fetch_add` returns the counter's value before the increment. -/
def identityOf (k : Nat) : Nat :=
  counterAfter k

/-- The thread-local state touched by transient context acquisition: the
thread's `CurrentContext` record plus whether the thread-local
`TransientContext::get()` optional currently holds a value
(GlContext.cpp lines 247-251). -/
structure ThreadGlState where
  cc : CurrentContext
  transientEngaged : Bool
deriving DecidableEq, Repr

/-- Modelled from the spec: `GraphicsContext::setActive`, whose
implementation file is not among the provided sources (only its callers
in GlContext.cpp are), "activate[s] the shared context" on the calling
thread (spec §4.4 step 2, §4.6); it is modelled as `GlContext::setActive`
applied to the shared context's identity `sharedId`. -/
def graphicsContextSetActive (mc : Bool → Bool) (sharedId : Nat) (active : Bool)
    (cc : CurrentContext) : Bool × CurrentContext :=
  setActive mc sharedId active cc

/-- `GlContext::acquireTransientContext` (lines 368-389): fast path when
some context is already active (`id != 0`) — increment `transientCount`
and do nothing else; otherwise emplace the thread-local
`TransientContext`, whose constructor (lines 207-218) locks the shared
mutex and activates the shared context (the `setActive` failure case is
only logged). -/
def acquireTransientContext (mc : Bool → Bool) (sharedId : Nat) (s : ThreadGlState) :
    ThreadGlState :=
  if s.cc.id ≠ 0 then
    { s with cc := { s.cc with transientCount := s.cc.transientCount + 1 } }
  else
    { cc := (graphicsContextSetActive mc sharedId true s.cc).2, transientEngaged := true }

/-- `GlContext::releaseTransientContext` (lines 393-411): fast path when
`transientCount > 0` — decrement it; otherwise reset the thread-local
`TransientContext`, whose destructor (lines 221-228) deactivates the
shared context. -/
def releaseTransientContext (mc : Bool → Bool) (sharedId : Nat) (s : ThreadGlState) :
    ThreadGlState :=
  if s.cc.transientCount > 0 then
    { s with cc := { s.cc with transientCount := s.cc.transientCount - 1 } }
  else
    { cc := (graphicsContextSetActive mc sharedId false s.cc).2, transientEngaged := false }

/-- `n` successive `acquireTransientContext` calls on one thread. -/
def acquireTransientN (mc : Bool → Bool) (sharedId : Nat) : Nat → ThreadGlState → ThreadGlState
  | 0, s => s
  | n + 1, s => acquireTransientN mc sharedId n (acquireTransientContext mc sharedId s)

/-- `n` successive `releaseTransientContext` calls on one thread. -/
def releaseTransientN (mc : Bool → Bool) (sharedId : Nat) : Nat → ThreadGlState → ThreadGlState
  | 0, s => s
  | n + 1, s => releaseTransientN mc sharedId n (releaseTransientContext mc sharedId s)

/-- `GlContext::Impl::UnsharedGlObject` (lines 286-290): a
`(contextId, shared_ptr<void>)` pair.  The opaque `shared_ptr<void>`
handle, compared by `operator==` (pointer identity) in the source, is
modelled as a `Nat`. -/
structure UnsharedGlObject where
  contextId : Nat
  object : Nat
deriving DecidableEq, Repr

/-- `GlContext::Impl::UnsharedGlObjects = std::vector<UnsharedGlObject>`. -/
abbrev UnsharedGlObjects := List UnsharedGlObject

/-- `GlContext::registerUnsharedGlObject` (lines 332-339): under the
registry mutex, if the weak pointer to the shared list still locks
(`alive`), append `(getActiveContextId(), handle)`; otherwise do
nothing. -/
def registerUnsharedGlObject (alive : Bool) (activeId handle : Nat)
    (reg : UnsharedGlObjects) : UnsharedGlObjects :=
  if alive then reg ++ [⟨activeId, handle⟩] else reg

/-- The `findIf`-then-`erase` step of `GlContext::unregisterUnsharedGlObject`
(lines 354-362): erase the first entry whose `contextId` equals the
current active context identity and whose handle equals the argument;
if no entry matches, leave the vector unchanged. -/
def eraseFirstMatching (activeId handle : Nat) : UnsharedGlObjects → UnsharedGlObjects
  | [] => []
  | o :: rest =>
    if o.contextId = activeId ∧ o.object = handle then rest
    else o :: eraseFirstMatching activeId handle rest

/-- `GlContext::unregisterUnsharedGlObject` (lines 343-364): under the
registry mutex, if the weak pointer still locks (`alive`), erase the
first entry matching `(getActiveContextId(), handle)`; the function
returns `void` — no failure is ever reported. -/
def unregisterUnsharedGlObject (alive : Bool) (activeId handle : Nat)
    (reg : UnsharedGlObjects) : UnsharedGlObjects :=
  if alive then eraseFirstMatching activeId handle reg else reg

/-- The erase loop of `GlContext::cleanupUnsharedResources`
(lines 736-746): iterate over the registry, erasing every entry whose
`contextId` equals the dying context's identity and keeping the rest. -/
def cleanupRegistry (dyingId : Nat) : UnsharedGlObjects → UnsharedGlObjects
  | [] => []
  | o :: rest =>
    if o.contextId = dyingId then cleanupRegistry dyingId rest
    else o :: cleanupRegistry dyingId rest

/-- `GlContext::cleanupUnsharedResources` (lines 717-753) for a dying
context of identity `dyingId`, on a thread with record `cc` and with the
shared registry `reg`: save the current context pointer as
`contextToRestore` (nulled when the dying context is already the active
one), activate the dying context, erase its registry entries, then
re-activate the saved context if there was one.  Failures of the two
`setActive` calls are logged and otherwise ignored, as in the source. -/
def cleanupUnsharedResources (mc : Bool → Bool) (dyingId : Nat)
    (cc : CurrentContext) (reg : UnsharedGlObjects) : CurrentContext × UnsharedGlObjects :=
  -- GlContext* contextToRestore = ptr; if (m_impl->id == id) contextToRestore = nullptr;
  let contextToRestore : Option Nat := if dyingId = cc.id then none else cc.ptr
  -- setActive(graphicsContext, true)  (result only logged)
  let cc1 := (setActive mc dyingId true cc).2
  -- erase this context's entries under the registry mutex
  let reg1 := cleanupRegistry dyingId reg
  -- if (contextToRestore) contextToRestore->setActive(graphicsContext, true)
  let cc2 := match contextToRestore with
    | some restoreId => (setActive mc restoreId true cc1).2
    | none => cc1
  (cc2, reg1)

/-- `GL_INVALID_ENUM` (0x0500), the error code signalling an unsupported
`glGetIntegerv` query. -/
def GL_INVALID_ENUM : Nat := 1280

/-- `static_cast<unsigned int>` of a C `int`, as applied to the queried
major/minor version numbers (lines 785-786): reduction modulo `2^32`. -/
def uintCast (i : Int) : Nat :=
  (i % 4294967296).toNat

/-- C `isdigit` in the default locale, as applied to version-string
characters (line 811). -/
def isDigitChar (c : Char) : Bool :=
  decide ('0' ≤ c ∧ c ≤ '9')

/-- The `parseVersionString` helper (lines 805-821): succeeds iff the
string is long enough, starts with the given prefix, and has
digit `'.'` digit at the prefix offset; on success returns
`(versionString[pfxLen] - '0', versionString[pfxLen + 2] - '0')`. -/
def parseVersionString (vs pfx : List Char) : Option (Nat × Nat) :=
  let pfxLen := pfx.length
  if pfxLen + 3 ≤ vs.length ∧ vs.take pfxLen = pfx
      ∧ isDigitChar (vs.getD pfxLen ' ') = true
      ∧ vs.getD (pfxLen + 1) ' ' = '.'
      ∧ isDigitChar (vs.getD (pfxLen + 2) ' ') = true then
    some ((vs.getD pfxLen ' ').toNat - Char.toNat '0',
      (vs.getD (pfxLen + 2) ' ').toNat - Char.toNat '0')
  else
    none

/-- "OpenGL ES-CL " (ES Common Lite). -/
def pfxEsCl : List Char := "OpenGL ES-CL ".toList

/-- "OpenGL ES-CM " (ES Common). -/
def pfxEsCm : List Char := "OpenGL ES-CM ".toList

/-- "OpenGL ES " (ES Full). -/
def pfxEsFull : List Char := "OpenGL ES ".toList

/-- The empty desktop-OpenGL prefix. -/
def pfxDesktop : List Char := []

/-- The short-circuit chain of the four `parseVersionString` attempts
(lines 823-826): try the prefixes in source order, stopping at the first
success. -/
def tryParsePrefixes (vs : List Char) : Option (Nat × Nat) :=
  match parseVersionString vs pfxEsCl with
  | some mm => some mm
  | none =>
    match parseVersionString vs pfxEsCm with
    | some mm => some mm
    | none =>
      match parseVersionString vs pfxEsFull with
      | some mm => some mm
      | none => parseVersionString vs pfxDesktop

/-- The version-detection portion of `GlContext::initialize`
(lines 763-835): query `GL_MAJOR_VERSION`/`GL_MINOR_VERSION` and use the
(int-to-unsigned cast) result when `glGetError()` does not report
`GL_INVALID_ENUM`; otherwise default the version to 1.1, then parse the
version string (when available) against the four known prefixes,
emitting one diagnostic when parsing fails or the string is unavailable.
Result: the negotiated `(major, minor)` and the diagnostic count. -/
def detectGlVersion (errorCode : Nat) (queriedMajor queriedMinor : Int)
    (versionString : Option (List Char)) : (Nat × Nat) × Nat :=
  if errorCode ≠ GL_INVALID_ENUM then
    ((uintCast queriedMajor, uintCast queriedMinor), 0)
  else
    match versionString with
    | some vs =>
      match tryParsePrefixes vs with
      | some mm => (mm, 0)
      | none => ((1, 1), 1)
    | none => ((1, 1), 1)

/-- `sf::ContextSettings`: the fields read by GlContext.cpp (requested or
negotiated context settings).  The unsigned machine integers are modelled
as `Nat` (all comparisons in `checkSettings` are on unsigned values). -/
structure ContextSettings where
  depthBits : Nat
  stencilBits : Nat
  antialiasingLevel : Nat
  majorVersion : Nat
  minorVersion : Nat
  attributeFlags : Nat
  sRgbCapable : Bool
deriving DecidableEq, Repr

/-- C `unsigned int` arithmetic: reduction of a computed value modulo
`2^32`, as in `majorVersion * 10u + minorVersion` (lines 933-934). -/
def uintOfNat (n : Nat) : Nat :=
  n % 4294967296

/-- `static_cast<int>` of an `unsigned int` value (`u < 2^32`): values
below `2^31` are unchanged, larger ones wrap to negatives
(lines 933-934). -/
def intOfUInt (u : Nat) : Int :=
  if u < 2147483648 then (u : Int) else (u : Int) - 4294967296

/-- `GlContext::checkSettings` (lines 930-955): compare the negotiated
settings `m` (the context's `m_settings`) with the requested ones and
emit one warning line on the `err()` stream when the context does not
fully meet the request; returns the number of diagnostic lines emitted.
The version comparison is on
`static_cast<int>(majorVersion * 10u + minorVersion)` — wrapping 32-bit
unsigned arithmetic cast to a signed `int` — exactly as in lines 933-934. -/
def checkSettings (requested m : ContextSettings) : Nat :=
  let version := intOfUInt (uintOfNat (m.majorVersion * 10 + m.minorVersion))
  let requestedVersion :=
    intOfUInt (uintOfNat (requested.majorVersion * 10 + requested.minorVersion))
  if m.attributeFlags ≠ requested.attributeFlags ∨ version < requestedVersion
      ∨ m.stencilBits < requested.stencilBits
      ∨ m.antialiasingLevel < requested.antialiasingLevel
      ∨ m.depthBits < requested.depthBits
      ∨ (¬m.sRgbCapable ∧ requested.sRgbCapable) then
    1
  else
    0

/-- The tail of `GlContext::create` (lines 490-498): if `initialize`
failed, log and return null; otherwise run `checkSettings` and return the
context (its negotiated settings) regardless of the check's outcome.
Result: the created context's settings (or `none` on failure) paired with
the number of diagnostic lines emitted by this tail. -/
def createContextTail (initializeOk : Bool) (requested negotiated : ContextSettings) :
    Option ContextSettings × Nat :=
  if initializeOk then (some negotiated, checkSettings requested negotiated)
  else (none, 1)

/-- C2: if `setActive(C, true)` on thread `T` returns `true` then `T`'s
activation record holds `identity(C)`; if `setActive(C, false)` is called
while `C` is `T`'s active context and returns `true`, then
`activeContextId() = 0` on `T`. -/
theorem setActive_updatesActivationRecord (mc : Bool → Bool) (ctxId : Nat) (cc : CurrentContext) :
    ((setActive mc ctxId true cc).1 = true →
      getActiveContextId (setActive mc ctxId true cc).2 = ctxId)
    ∧ (cc.id = ctxId → (setActive mc ctxId false cc).1 = true →
      getActiveContextId (setActive mc ctxId false cc).2 = 0) := by
  constructor
  · intro h
    by_cases h1 : ctxId = cc.id
    · simp [setActive, h1, getActiveContextId]
    · by_cases hmc : mc true
      · simp [setActive, h1, hmc, getActiveContextId]
      · simp [setActive, h1, hmc] at h
  · intro hact h
    by_cases hmc : mc false
    · simp [setActive, hact, hmc, getActiveContextId]
    · simp [setActive, hact, hmc] at h

/-- Witness for C2 at a concrete input. -/
theorem setActive_updatesActivationRecord_witness :
    getActiveContextId (setActive (fun _ => true) 7 true ⟨0, none, 0⟩).2 = 7
    ∧ getActiveContextId (setActive (fun _ => true) 7 false ⟨7, some 7, 0⟩).2 = 0 :=
  ⟨(setActive_updatesActivationRecord (fun _ => true) 7 ⟨0, none, 0⟩).1 (by decide),
   (setActive_updatesActivationRecord (fun _ => true) 7 ⟨7, some 7, 0⟩).2 (by decide) (by decide)⟩

/-- C6: `setActive` is idempotent at its no-op boundaries: activating an
already-active context returns `true` and changes nothing, and
deactivating a context that is not the thread's active one returns `true`
and changes nothing. -/
theorem setActive_noopBoundaries (mc : Bool → Bool) (ctxId : Nat) (cc : CurrentContext) :
    (cc.id = ctxId → setActive mc ctxId true cc = (true, cc))
    ∧ (cc.id ≠ ctxId → setActive mc ctxId false cc = (true, cc)) := by
  constructor
  · intro h
    simp [setActive, h]
  · intro h
    simp [setActive, Ne.symm h]

/-- Witness for C6 at a concrete input. -/
theorem setActive_noopBoundaries_witness :
    setActive (fun _ => false) 4 true ⟨4, some 4, 2⟩ = (true, ⟨4, some 4, 2⟩)
    ∧ setActive (fun _ => false) 9 false ⟨4, some 4, 2⟩ = (true, ⟨4, some 4, 2⟩) :=
  ⟨(setActive_noopBoundaries (fun _ => false) 4 ⟨4, some 4, 2⟩).1 (by decide),
   (setActive_noopBoundaries (fun _ => false) 9 ⟨4, some 4, 2⟩).2 (by decide)⟩

/-- C9: a failed `setActive` (the platform `makeCurrent` call returned
false, in either direction) returns `false` and leaves the thread's
activation record exactly as it was. -/
theorem setActive_failureAtomic (mc : Bool → Bool) (ctxId : Nat) (active : Bool)
    (cc : CurrentContext) (hfail : (setActive mc ctxId active cc).1 = false) :
    (setActive mc ctxId active cc).2 = cc := by
  unfold setActive at hfail ⊢
  split at hfail
  · simp at hfail
  · split at hfail
    · simp at hfail
    · split at hfail <;> split at hfail <;> simp_all

/-- Witness for C9 at a concrete input. -/
theorem setActive_failureAtomic_witness :
    (setActive (fun _ => false) 5 true ⟨0, none, 0⟩).2 = ⟨0, none, 0⟩ :=
  setActive_failureAtomic (fun _ => false) 5 true ⟨0, none, 0⟩ (by decide)

theorem counterAfter_eq (k : Nat) : counterAfter k = (1 + k) % U64 := by
  induction k with
  | zero =>
    simp [counterAfter, U64]
  | succ n ih =>
    simp only [counterAfter, ih, U64] at *
    omega

/-- Counterexample for C1: the identity counter is a 64-bit machine
integer, so the `2^64`-th construction is issued identity `0` — the
reserved "no context" value — which is also smaller than the first
context's identity `1`, and the `(2^64+1)`-th construction reuses
identity `1`.  The claim's unbounded monotonicity/nonzero/no-reuse
statement therefore fails at a sequence of `2^64 + 1` constructions. -/
theorem identityOf_wraps_counterexample :
    identityOf 0 = 1 ∧ identityOf (U64 - 1) = 0 ∧ identityOf U64 = 1 := by
  refine ⟨rfl, ?_, ?_⟩
  · rw [identityOf, counterAfter_eq]
    simp [U64]
  · rw [identityOf, counterAfter_eq]
    simp [U64]

/-- C1 (amended): for any sequence of context constructions in which the
later one is among the first `2^64 - 1` constructions, identities are
issued by the atomic fetch-and-increment starting at 1, are strictly
increasing in construction order, are never zero (0 stays reserved for
"no context"), and are never reused.  (`identityOf i` is the identity of
the `(i+1)`-th construction.) -/
theorem identityOf_strictMono (i j : Nat) (hij : i < j) (hj : j < U64 - 1) :
    identityOf i ≠ 0 ∧ identityOf i < identityOf j := by
  have hi : identityOf i = 1 + i := by
    rw [identityOf, counterAfter_eq, Nat.mod_eq_of_lt]
    simp only [U64] at *
    omega
  have hjv : identityOf j = 1 + j := by
    rw [identityOf, counterAfter_eq, Nat.mod_eq_of_lt]
    simp only [U64] at *
    omega
  rw [hi, hjv]
  omega

/-- Witness for C1's amended theorem at a concrete input. -/
theorem identityOf_strictMono_witness :
    identityOf 0 ≠ 0 ∧ identityOf 0 < identityOf 1 :=
  identityOf_strictMono 0 1 (by omega) (by simp [U64])

/-- `GlContextImpl::CurrentContext::get().id` stays nonzero on the fast
path, so repeated acquisitions only accumulate the nesting counter. -/
theorem acquireTransientN_fast (mc : Bool → Bool) (sharedId : Nat) (n : Nat) :
    ∀ s : ThreadGlState, s.cc.id ≠ 0 →
      acquireTransientN mc sharedId n s
        = { s with cc := { s.cc with transientCount := s.cc.transientCount + n } } := by
  induction n with
  | zero =>
    intro s _
    rfl
  | succ n ih =>
    intro s h
    obtain ⟨⟨i, p, c⟩, e⟩ := s
    simp only [acquireTransientN, acquireTransientContext, graphicsContextSetActive] at *
    rw [if_pos h]
    rw [ih _ h]
    simp
    omega

theorem releaseTransientN_fast (mc : Bool → Bool) (sharedId : Nat) (n : Nat) :
    ∀ s : ThreadGlState, n ≤ s.cc.transientCount →
      releaseTransientN mc sharedId n s
        = { s with cc := { s.cc with transientCount := s.cc.transientCount - n } } := by
  induction n with
  | zero =>
    intro s _
    rfl
  | succ n ih =>
    intro s h
    obtain ⟨⟨i, p, c⟩, e⟩ := s
    simp only [ThreadGlState.mk.injEq, CurrentContext.mk.injEq] at h
    have hpos : 0 < c := by omega
    simp only [releaseTransientN, releaseTransientContext]
    rw [if_pos (by simpa using hpos)]
    rw [ih _ (by simpa using Nat.le_sub_one_of_lt (Nat.lt_of_lt_of_le (Nat.lt_succ_self n) h))]
    simp
    omega

theorem releaseTransientN_drain (mc : Bool → Bool) (sharedId : Nat)
    (hmc : ∀ b, mc b = true) :
    ∀ k : Nat, releaseTransientN mc sharedId (k + 1)
        ⟨⟨sharedId, some sharedId, k⟩, true⟩ = ⟨⟨0, none, 0⟩, false⟩ := by
  intro k
  induction k with
  | zero =>
    simp [releaseTransientN, releaseTransientContext, graphicsContextSetActive, setActive,
      hmc false]
  | succ n ih =>
    show releaseTransientN mc sharedId (n + 1)
        (releaseTransientContext mc sharedId ⟨⟨sharedId, some sharedId, n + 1⟩, true⟩) = _
    have hstep : releaseTransientContext mc sharedId ⟨⟨sharedId, some sharedId, n + 1⟩, true⟩
        = ⟨⟨sharedId, some sharedId, n⟩, true⟩ := by
      simp [releaseTransientContext]
    rw [hstep]
    exact ih

/-- C3: transient acquisition/release is stack-balanced on one thread:
with the pre-acquire nesting count at 0 (and, when no context is active,
an idle thread-local transient slot), `N` acquires followed by `N`
releases restore the thread's activation state exactly; moreover every
acquire made while some context is active (`id ≠ 0`) only increments the
nesting counter and changes nothing else. -/
theorem transientContext_stackBalanced (mc : Bool → Bool) (sharedId N : Nat)
    (s : ThreadGlState) (hmc : ∀ b, mc b = true) (hsid : sharedId ≠ 0)
    (hcount : s.cc.transientCount = 0)
    (hidle : s.cc.id = 0 → s.cc.ptr = none ∧ s.transientEngaged = false) :
    releaseTransientN mc sharedId N (acquireTransientN mc sharedId N s) = s
    ∧ ∀ t : ThreadGlState, t.cc.id ≠ 0 →
        acquireTransientContext mc sharedId t
          = { t with cc := { t.cc with transientCount := t.cc.transientCount + 1 } } := by
  constructor
  · by_cases hid : s.cc.id = 0
    · obtain ⟨hptr, heng⟩ := hidle hid
      obtain ⟨⟨i, p, c⟩, e⟩ := s
      simp only at hid hptr heng hcount
      subst hid hptr heng hcount
      cases N with
      | zero => rfl
      | succ n =>
        have h1 : acquireTransientContext mc sharedId ⟨⟨0, none, 0⟩, false⟩
            = ⟨⟨sharedId, some sharedId, 0⟩, true⟩ := by
          simp [acquireTransientContext, graphicsContextSetActive, setActive, hsid, hmc true]
        show releaseTransientN mc sharedId (n + 1)
            (acquireTransientN mc sharedId n
              (acquireTransientContext mc sharedId ⟨⟨0, none, 0⟩, false⟩)) = _
        rw [h1, acquireTransientN_fast mc sharedId n ⟨⟨sharedId, some sharedId, 0⟩, true⟩
          (by simpa using hsid)]
        simpa using releaseTransientN_drain mc sharedId hmc n
    · rw [acquireTransientN_fast mc sharedId N s hid]
      rw [releaseTransientN_fast mc sharedId N _ (by simp [hcount])]
      obtain ⟨⟨i, p, c⟩, e⟩ := s
      simp
  · intro t ht
    simp [acquireTransientContext, ht]

/-- Witness for C3 at a concrete input. -/
theorem transientContext_stackBalanced_witness :
    releaseTransientN (fun _ => true) 1 2
        (acquireTransientN (fun _ => true) 1 2 ⟨⟨0, none, 0⟩, false⟩) = ⟨⟨0, none, 0⟩, false⟩
    ∧ acquireTransientContext (fun _ => true) 1 ⟨⟨3, some 3, 0⟩, false⟩
        = ⟨⟨3, some 3, 1⟩, false⟩ := by
  have h := transientContext_stackBalanced (fun _ => true) 1 2 ⟨⟨0, none, 0⟩, false⟩
    (fun _ => rfl) (by decide) rfl (by decide)
  exact ⟨h.1, h.2 ⟨⟨3, some 3, 0⟩, false⟩ (by decide)⟩

theorem cleanupRegistry_eq_filter (dyingId : Nat) (reg : UnsharedGlObjects) :
    cleanupRegistry dyingId reg = reg.filter (fun o => o.contextId ≠ dyingId) := by
  induction reg with
  | nil => rfl
  | cons o rest ih =>
    by_cases h : o.contextId = dyingId <;> simp [cleanupRegistry, List.filter, h, ih]

/-- C4: destruction-time bulk cleanup removes from the registry exactly
the entries whose `contextId` equals the dying context's identity (the
result is the filter keeping every other entry, in order), and the
cleanup is idempotent — running it again, e.g. after some entries were
already removed individually, is a safe no-op for them. -/
theorem cleanupRegistry_spec (dyingId : Nat) (reg : UnsharedGlObjects) :
    cleanupRegistry dyingId reg = reg.filter (fun o => o.contextId ≠ dyingId)
    ∧ cleanupRegistry dyingId (cleanupRegistry dyingId reg) = cleanupRegistry dyingId reg
    ∧ (∀ o ∈ cleanupRegistry dyingId reg, o.contextId ≠ dyingId)
    ∧ (∀ o ∈ reg, o.contextId ≠ dyingId → o ∈ cleanupRegistry dyingId reg) := by
  refine ⟨cleanupRegistry_eq_filter dyingId reg, ?_, ?_, ?_⟩
  · rw [cleanupRegistry_eq_filter, cleanupRegistry_eq_filter, List.filter_filter]
    simp
  · intro o ho
    rw [cleanupRegistry_eq_filter] at ho
    simpa using (List.mem_filter.mp ho).2
  · intro o ho hne
    rw [cleanupRegistry_eq_filter]
    exact List.mem_filter.mpr ⟨ho, by simpa using hne⟩

/-- C5: `unregisterUnsharedGlObject` removes only the first entry matching
`(activeId, handle)`; when no entry matches — in particular when the
thread's active identity differs from the identity recorded at
registration — it is a no-op with no failure report; and a register
followed by an unregister under the same continuously-active identity
removes exactly one entry, leaving the registry size unchanged net of
the pair. -/
theorem unregisterUnsharedGlObject_spec (activeId handle : Nat)
    (l1 l2 reg : UnsharedGlObjects)
    (hfirst : UnsharedGlObject.mk activeId handle ∉ l1) :
    (UnsharedGlObject.mk activeId handle ∉ reg →
      unregisterUnsharedGlObject true activeId handle reg = reg)
    ∧ unregisterUnsharedGlObject true activeId handle
        (l1 ++ UnsharedGlObject.mk activeId handle :: l2) = l1 ++ l2
    ∧ (unregisterUnsharedGlObject true activeId handle
        (registerUnsharedGlObject true activeId handle reg)).length = reg.length := by
  have herase : ∀ l : UnsharedGlObjects, UnsharedGlObject.mk activeId handle ∉ l →
      eraseFirstMatching activeId handle l = l := by
    intro l hl
    induction l with
    | nil => rfl
    | cons o rest ih =>
      have ho : o ≠ UnsharedGlObject.mk activeId handle := fun h => hl (by simp [h])
      have hcond : ¬(o.contextId = activeId ∧ o.object = handle) := by
        intro ⟨h1, h2⟩
        exact ho (by cases o; simp_all)
      simp only [eraseFirstMatching, if_neg hcond]
      rw [ih (fun h => hl (List.mem_cons_of_mem o h))]
  have hsplit : ∀ l : UnsharedGlObjects, UnsharedGlObject.mk activeId handle ∉ l →
      ∀ tail : UnsharedGlObjects,
        eraseFirstMatching activeId handle
          (l ++ UnsharedGlObject.mk activeId handle :: tail) = l ++ tail := by
    intro l hl
    induction l with
    | nil =>
      intro tail
      simp [eraseFirstMatching]
    | cons o rest ih =>
      intro tail
      have ho : o ≠ UnsharedGlObject.mk activeId handle := fun h => hl (by simp [h])
      have hcond : ¬(o.contextId = activeId ∧ o.object = handle) := by
        intro ⟨h1, h2⟩
        exact ho (by cases o; simp_all)
      simp only [List.cons_append, eraseFirstMatching, if_neg hcond, List.append_eq]
      rw [ih (fun h => hl (List.mem_cons_of_mem o h)) tail]
  refine ⟨?_, ?_, ?_⟩
  · intro hreg
    simpa [unregisterUnsharedGlObject] using herase reg hreg
  · simpa [unregisterUnsharedGlObject] using hsplit l1 hfirst l2
  · have hlen : ∀ l : UnsharedGlObjects, UnsharedGlObject.mk activeId handle ∈ l →
        (eraseFirstMatching activeId handle l).length + 1 = l.length := by
      intro l hl
      induction l with
      | nil => cases hl
      | cons o rest ih =>
        by_cases hcond : o.contextId = activeId ∧ o.object = handle
        · simp [eraseFirstMatching, hcond]
        · have ho : o ≠ UnsharedGlObject.mk activeId handle := by
            intro h
            exact hcond (by cases o; simp_all)
          have hm : UnsharedGlObject.mk activeId handle ∈ rest := by
            rcases List.mem_cons.mp hl with h | h
            · exact absurd h.symm ho
            · exact h
          have := ih hm
          simp only [eraseFirstMatching, if_neg hcond, List.length_cons]
          omega
    have hmem : UnsharedGlObject.mk activeId handle ∈
        reg ++ [UnsharedGlObject.mk activeId handle] := by simp
    have hfin := hlen (reg ++ [UnsharedGlObject.mk activeId handle]) hmem
    simp only [List.length_append, List.length_cons, List.length_nil] at hfin
    simp only [unregisterUnsharedGlObject, registerUnsharedGlObject, if_true]
    omega

/-- C10: when the platform `makeCurrent` calls succeed,
`cleanupUnsharedResources` restores the caller's context: if a context
`R` different from the dying one was active on the thread beforehand, `R`
is active again afterwards (re-activated via `setActive(true)`); the
thread is left holding the dying context exactly when no other context
was active beforehand (none at all, or the dying one itself). -/
theorem cleanupUnsharedResources_restoresCaller (mc : Bool → Bool) (dyingId : Nat)
    (cc : CurrentContext) (reg : UnsharedGlObjects) (R : Nat)
    (hmc : ∀ b, mc b = true) :
    (cc.id = R → cc.ptr = some R → R ≠ dyingId →
      (cleanupUnsharedResources mc dyingId cc reg).1.id = R
      ∧ (cleanupUnsharedResources mc dyingId cc reg).1.ptr = some R)
    ∧ (cc.id = 0 → cc.ptr = none →
      (cleanupUnsharedResources mc dyingId cc reg).1.id = dyingId)
    ∧ (cc.id = dyingId →
      (cleanupUnsharedResources mc dyingId cc reg).1.id = dyingId) := by
  refine ⟨?_, ?_, ?_⟩
  · intro hid hptr hne
    have hdne : dyingId ≠ cc.id := by rw [hid]; exact fun h => hne h.symm
    have hRne : R ≠ dyingId := hne
    simp only [cleanupUnsharedResources, setActive, hptr, if_neg hdne]
    by_cases hdz : dyingId = cc.id
    · exact absurd hdz hdne
    · simp [hdz, hmc true, hRne]
  · intro hid hptr
    by_cases hdz : dyingId = 0
    · have hde : dyingId = cc.id := by rw [hid, hdz]
      simp [cleanupUnsharedResources, setActive, hde]
    · have hdne : dyingId ≠ cc.id := by rw [hid]; exact hdz
      simp [cleanupUnsharedResources, setActive, hptr, hdne, hmc true]
  · intro hid
    have hde : dyingId = cc.id := hid.symm
    simp [cleanupUnsharedResources, setActive, hde]

/-- Witness for C10 at a concrete input. -/
theorem cleanupUnsharedResources_restoresCaller_witness :
    (cleanupUnsharedResources (fun _ => true) 3 ⟨5, some 5, 0⟩ [⟨3, 1⟩, ⟨4, 2⟩]).1.id = 5
    ∧ (cleanupUnsharedResources (fun _ => true) 3 ⟨5, some 5, 0⟩ [⟨3, 1⟩, ⟨4, 2⟩]).1.ptr = some 5 :=
  (cleanupUnsharedResources_restoresCaller (fun _ => true) 3 ⟨5, some 5, 0⟩ [⟨3, 1⟩, ⟨4, 2⟩] 5
    (fun _ => rfl)).1 rfl rfl (by decide)

/-- C8: the version-detection algorithm of `initialize` uses the integer
queries when no invalid-enum error is reported; otherwise it runs the
shared parser over exactly the four prefixes "OpenGL ES-CL ",
"OpenGL ES-CM ", "OpenGL ES ", and the empty desktop prefix, in order; a
parser success requires the prefix followed by digit `'.'` digit at the
prefix offset; and if all four parses fail or the version string is
unavailable, the negotiated version is 1.1 with one diagnostic. -/
theorem detectGlVersion_spec (errorCode : Nat) (queriedMajor queriedMinor : Int)
    (vs : List Char) :
    (errorCode ≠ GL_INVALID_ENUM →
      ∀ osv, detectGlVersion errorCode queriedMajor queriedMinor osv
        = ((uintCast queriedMajor, uintCast queriedMinor), 0))
    ∧ tryParsePrefixes vs
        = [pfxEsCl, pfxEsCm, pfxEsFull, pfxDesktop].findSome? (parseVersionString vs)
    ∧ (∀ mm, tryParsePrefixes vs = some mm →
        detectGlVersion GL_INVALID_ENUM queriedMajor queriedMinor (some vs) = (mm, 0))
    ∧ (tryParsePrefixes vs = none →
        detectGlVersion GL_INVALID_ENUM queriedMajor queriedMinor (some vs) = ((1, 1), 1))
    ∧ detectGlVersion GL_INVALID_ENUM queriedMajor queriedMinor none = ((1, 1), 1)
    ∧ (∀ pfx mm, parseVersionString vs pfx = some mm →
        vs.take pfx.length = pfx
        ∧ isDigitChar (vs.getD pfx.length ' ') = true
        ∧ vs.getD (pfx.length + 1) ' ' = '.'
        ∧ isDigitChar (vs.getD (pfx.length + 2) ' ') = true
        ∧ mm = ((vs.getD pfx.length ' ').toNat - Char.toNat '0',
            (vs.getD (pfx.length + 2) ' ').toNat - Char.toNat '0')) := by
  refine ⟨?_, ?_, ?_, ?_, ?_, ?_⟩
  · intro h osv
    simp [detectGlVersion, h]
  · cases h1 : parseVersionString vs pfxEsCl <;>
      cases h2 : parseVersionString vs pfxEsCm <;>
        cases h3 : parseVersionString vs pfxEsFull <;>
          cases h4 : parseVersionString vs pfxDesktop <;>
            simp [tryParsePrefixes, List.findSome?_cons, h1, h2, h3, h4]
  · intro mm h
    simp [detectGlVersion, h]
  · intro h
    simp [detectGlVersion, h]
  · simp [detectGlVersion]
  · intro pfx mm h
    simp only [parseVersionString] at h
    split at h
    · rename_i hcond
      obtain ⟨_, htake, hd1, hdot, hd2⟩ := hcond
      exact ⟨htake, hd1, hdot, hd2, (Option.some.injEq _ _).mp h.symm⟩
    · cases h

/-- Witness for C8 at concrete inputs: an ES Full version string parses
to (2, 0); the integer-query path at error code 0 is used verbatim. -/
theorem detectGlVersion_spec_witness :
    detectGlVersion GL_INVALID_ENUM 0 0 (some ("OpenGL ES 2.0 build".toList)) = ((2, 0), 0)
    ∧ detectGlVersion 0 3 1 (some ("junk".toList)) = ((uintCast 3, uintCast 1), 0)
    ∧ detectGlVersion GL_INVALID_ENUM 0 0 (some ("nonsense".toList)) = ((1, 1), 1) := by
  have h := detectGlVersion_spec GL_INVALID_ENUM 0 0 ("OpenGL ES 2.0 build".toList)
  have h2 := detectGlVersion_spec 0 3 1 ("junk".toList)
  have h3 := detectGlVersion_spec GL_INVALID_ENUM 0 0 ("nonsense".toList)
  exact ⟨h.2.2.1 (2, 0) (by decide), h2.1 (by decide) _, h3.2.2.2.1 (by decide)⟩

/-- Counterexample for C7: the claim's "version lower than requested"
dimension does not always trigger the diagnostic.  The source compares
`static_cast<int>(majorVersion * 10u + minorVersion)` in wrapping 32-bit
arithmetic (lines 933-934), so for requested version 429496730.0 (a
representable `unsigned int` request) against granted version 0.5 — all
other dimensions equal — the requested encoding wraps to
`int(4294967300u mod 2^32) = 4`, the comparison `5 < 4` is false, and no
diagnostic is emitted, although the granted version is lower than the
requested one. -/
theorem checkSettings_versionWrap_counterexample :
    0 * 10 + 5 < 429496730 * 10 + 0
    ∧ checkSettings ⟨24, 8, 4, 429496730, 0, 0, false⟩ ⟨24, 8, 4, 0, 5, 0, false⟩ = 0 := by
  constructor
  · decide
  · decide

/-- C7 (amended): whenever the negotiated settings are weaker than
requested in any dimension — version lower in the source's wrapped
32-bit encoding `static_cast<int>(major * 10u + minor)` (which agrees
with the plain `major*10 + minor` comparison whenever both encodings are
below `2^31`, i.e. for all real OpenGL versions), fewer depth or stencil
bits, lower antialiasing, a requested core/debug attribute flag bit that
is absent, or missing sRGB capability — exactly one non-fatal diagnostic
is emitted, and creation still succeeds: the create tail returns the
context whenever `initialize` succeeded, so no `checkSettings` condition
ever produces a failure result. -/
theorem checkSettings_weakerEmitsOneDiagnostic (requested m : ContextSettings)
    (hweaker : intOfUInt (uintOfNat (m.majorVersion * 10 + m.minorVersion))
        < intOfUInt (uintOfNat (requested.majorVersion * 10 + requested.minorVersion))
      ∨ m.depthBits < requested.depthBits
      ∨ m.stencilBits < requested.stencilBits
      ∨ m.antialiasingLevel < requested.antialiasingLevel
      ∨ (∃ i, requested.attributeFlags.testBit i = true ∧ m.attributeFlags.testBit i = false)
      ∨ (requested.sRgbCapable ∧ ¬m.sRgbCapable)) :
    checkSettings requested m = 1
    ∧ (∀ initializeOk : Bool,
        (createContextTail initializeOk requested m).1
          = if initializeOk then some m else none)
    ∧ (m.majorVersion * 10 + m.minorVersion < 2147483648 →
        requested.majorVersion * 10 + requested.minorVersion < 2147483648 →
        (intOfUInt (uintOfNat (m.majorVersion * 10 + m.minorVersion))
            < intOfUInt (uintOfNat (requested.majorVersion * 10 + requested.minorVersion))
          ↔ m.majorVersion * 10 + m.minorVersion
            < requested.majorVersion * 10 + requested.minorVersion)) := by
  refine ⟨?_, ?_, ?_⟩
  · have hcond : m.attributeFlags ≠ requested.attributeFlags
        ∨ intOfUInt (uintOfNat (m.majorVersion * 10 + m.minorVersion))
            < intOfUInt (uintOfNat (requested.majorVersion * 10 + requested.minorVersion))
        ∨ m.stencilBits < requested.stencilBits
        ∨ m.antialiasingLevel < requested.antialiasingLevel
        ∨ m.depthBits < requested.depthBits
        ∨ (¬m.sRgbCapable ∧ requested.sRgbCapable) := by
      rcases hweaker with h | h | h | h | ⟨i, hreq, hm⟩ | ⟨hreq, hm⟩
      · exact Or.inr (Or.inl h)
      · exact Or.inr (Or.inr (Or.inr (Or.inr (Or.inl h))))
      · exact Or.inr (Or.inr (Or.inl h))
      · exact Or.inr (Or.inr (Or.inr (Or.inl h)))
      · refine Or.inl fun heq => ?_
        rw [heq] at hm
        rw [hreq] at hm
        cases hm
      · exact Or.inr (Or.inr (Or.inr (Or.inr (Or.inr ⟨hm, hreq⟩))))
    simp only [checkSettings, if_pos hcond]
  · intro initializeOk
    cases initializeOk <;> simp [createContextTail]
  · intro h1 h2
    have e1 : intOfUInt (uintOfNat (m.majorVersion * 10 + m.minorVersion))
        = ((m.majorVersion * 10 + m.minorVersion : Nat) : Int) := by
      unfold intOfUInt uintOfNat
      rw [Nat.mod_eq_of_lt (by omega)]
      rw [if_pos h1]
    have e2 : intOfUInt (uintOfNat (requested.majorVersion * 10 + requested.minorVersion))
        = ((requested.majorVersion * 10 + requested.minorVersion : Nat) : Int) := by
      unfold intOfUInt uintOfNat
      rw [Nat.mod_eq_of_lt (by omega)]
      rw [if_pos h2]
    rw [e1, e2]
    exact Nat.cast_lt

/-- Witness for C7 at a concrete input: the spec's scenario — requested
`{depthBits = 24, antialiasing = 4}` against a granted
`{depthBits = 16, antialiasing = 0}`. -/
theorem checkSettings_weakerEmitsOneDiagnostic_witness :
    checkSettings ⟨24, 8, 4, 2, 1, 0, false⟩ ⟨16, 8, 0, 2, 1, 0, false⟩ = 1
    ∧ ∀ initializeOk : Bool,
        (createContextTail initializeOk ⟨24, 8, 4, 2, 1, 0, false⟩ ⟨16, 8, 0, 2, 1, 0, false⟩).1
          = if initializeOk then some ⟨16, 8, 0, 2, 1, 0, false⟩ else none :=
  ⟨(checkSettings_weakerEmitsOneDiagnostic ⟨24, 8, 4, 2, 1, 0, false⟩ ⟨16, 8, 0, 2, 1, 0, false⟩
      (Or.inr (Or.inl (by decide)))).1,
   (checkSettings_weakerEmitsOneDiagnostic ⟨24, 8, 4, 2, 1, 0, false⟩ ⟨16, 8, 0, 2, 1, 0, false⟩
      (Or.inr (Or.inl (by decide)))).2.1⟩

/-- Witness for C5 at a concrete input. -/
theorem unregisterUnsharedGlObject_spec_witness :
    (UnsharedGlObject.mk 2 20 ∉ ([⟨1, 10⟩] : UnsharedGlObjects) →
      unregisterUnsharedGlObject true 2 20 [⟨1, 10⟩] = [⟨1, 10⟩])
    ∧ unregisterUnsharedGlObject true 2 20 ([⟨1, 10⟩] ++ UnsharedGlObject.mk 2 20 :: []) =
        [⟨1, 10⟩] ++ []
    ∧ (unregisterUnsharedGlObject true 2 20
        (registerUnsharedGlObject true 2 20 [⟨1, 10⟩])).length =
        ([⟨1, 10⟩] : UnsharedGlObjects).length :=
  unregisterUnsharedGlObject_spec 2 20 [⟨1, 10⟩] [] [⟨1, 10⟩] (by decide)
